import Mathlib

/-!
# Verification of the letta agent step engine (`letta/agent.py`)

Shallow embedding of the message-buffer operations, the compaction
(summarization) engine, the model-call retry policy, the tool dispatcher
response handler, the system-prompt rebuild, and the tool-rule
configuration check of `letta/agent.py`, together with proofs of the
specification's testable properties.

External collaborators (token counter, summarizer, sandbox execution,
JSON parsing, the tool-rule solver of `letta/helpers.py`) are modelled as
parameters, since their code lives outside this repository; every
definition below otherwise follows the Python source line by line.
-/

namespace Letta

/-- Message roles (`letta.schemas.enums.MessageRole`, plus the legacy
`function` role string that `summarize_messages_inplace` checks for). -/
inductive Role where
  | system
  | user
  | assistant
  | tool
  | function
deriving DecidableEq, Repr

/-- A buffer message as seen by the context-window manager: only the role,
an (abstract) content payload and an id are relevant to the claims. -/
structure Msg where
  role : Role
  content : String
  mid : Nat
deriving DecidableEq, Repr

/-- The buffer invariant of spec section 8: the first message exists and
has role `system` (`buffer[0].role == system`). -/
def sysFirst (msgs : List Msg) : Prop :=
  match msgs.head? with
  | some m => m.role = Role.system
  | none => False

instance (msgs : List Msg) : Decidable (sysFirst msgs) := by
  unfold sysFirst
  cases msgs.head? with
  | none => exact inferInstanceAs (Decidable False)
  | some m => exact inferInstanceAs (Decidable (m.role = Role.system))

/-- Embeds `Agent._trim_messages`: `[self._messages[0]] + self._messages[num:]`.
(On a nonempty buffer `take 1` is exactly `[buffer[0]]`.) -/
def _trim_messages (num : Nat) (msgs : List Msg) : List Msg :=
  msgs.take 1 ++ msgs.drop num

/-- Embeds `Agent._prepend_to_messages`:
`[self._messages[0]] + added_messages + self._messages[1:]`. -/
def _prepend_to_messages (added : List Msg) (msgs : List Msg) : List Msg :=
  msgs.take 1 ++ added ++ msgs.drop 1

/-- Embeds `Agent._append_to_messages`: `self._messages + added_messages`. -/
def _append_to_messages (added : List Msg) (msgs : List Msg) : List Msg :=
  msgs ++ added

/-- Embeds `Agent._swap_system_message_in_buffer`: build a fresh system-role
message from `new_system_message` and splice it in as
`[new_system_message_obj] + self._messages[1:]`. -/
def _swap_system_message_in_buffer (newContent : String) (newId : Nat)
    (msgs : List Msg) : List Msg :=
  ⟨Role.system, newContent, newId⟩ :: msgs.drop 1

/-! ## Compaction engine (`Agent.summarize_messages_inplace`) -/

/-- Python's negative-stop slice `lst[:-n]`: for `n = 0` this is `lst[:0] = []`,
otherwise it drops the last `n` elements. -/
def pySliceToNeg {α : Type} (n : Nat) (l : List α) : List α :=
  if n = 0 then [] else l.take (l.length - n)

/-- External inputs of `summarize_messages_inplace` that live outside this
repository: `count_tokens(str(msg))` (`letta.utils`), the constants
`MESSAGE_SUMMARY_TRUNC_KEEP_N_LAST` and `MESSAGE_SUMMARY_TRUNC_TOKEN_FRAC`
(`letta.constants`; `desiredOf` stands for
`int(count * MESSAGE_SUMMARY_TRUNC_TOKEN_FRAC)`), and the packaged text of
the external summarizer call (`summarize_messages` + `package_summarize_message`),
together with the id `dict_to_message` mints for the summary message. -/
structure SummCfg where
  tokens : Msg → Nat
  keepN : Nat
  desiredOf : Nat → Nat
  summaryText : String
  summaryId : Nat

/-- Outcomes of a `summarize_messages_inplace` run that raises:
`insufficientMessages` is the `ContextWindowExceededError`
("Not enough messages to compress for summarization"), `indexError` is an
uncaught `IndexError` escaping the tool/function cutoff-adjustment loop. -/
inductive SummErr where
  | insufficientMessages
  | indexError
deriving DecidableEq, Repr

/-- The front-to-back token walk of `summarize_messages_inplace`:
`cutoff = 0; for i, msg in enumerate(candidates): cutoff = i;`
`tokens_so_far += token_counts[i];`
`if tokens_so_far > desired: break` — returns the final `cutoff`
(`i` is the index of the next element to process, so on normal loop exit
the last value assigned to `cutoff` is `i - 1`). -/
def walkCutoff (desired : Nat) : List Nat → Nat → Nat → Nat
  | [], _, i => i - 1
  | t :: rest, tokensSoFar, i =>
    if tokensSoFar + t > desired then i
    else walkCutoff desired rest (tokensSoFar + t) (i + 1)

/-- The `try/except IndexError` block that shifts the cutoff past a
leading `user` message: if `messages[cutoff]` is a `user`, the code reads
`messages[cutoff+1]` (for a log line) before assigning
`cutoff = new_cutoff`; an `IndexError` from either read is caught and
leaves `cutoff` unchanged. -/
def userShift (msgs : List Msg) (cutoff : Nat) : Nat :=
  match msgs.get? cutoff with
  | none => cutoff
  | some m =>
    if m.role = Role.user then
      match msgs.get? (cutoff + 1) with
      | none => cutoff
      | some _ => cutoff + 1
    else cutoff

/-- The tool/function cutoff-adjustment loop
`while self.messages[cutoff]["role"] in ["tool", "function"] and cutoff < len(self.messages)`:
the subscript `self.messages[cutoff]` is evaluated before the
`cutoff < len` bound is checked, so running past the end of the buffer
raises an uncaught `IndexError` (`none` here). The list argument is the
suffix `msgs.drop cutoff`, whose head is `self.messages[cutoff]`. -/
def toolShiftAux (total : Nat) : List Msg → Nat → Option Nat
  | [], _ => none
  | m :: rest, cutoff =>
    if m.role = Role.tool ∨ m.role = Role.function then
      if cutoff < total then toolShiftAux total rest (cutoff + 1)
      else some cutoff
    else some cutoff

/-- The tool/function cutoff adjustment, started at the given cutoff. -/
def toolShift (msgs : List Msg) (cutoff : Nat) : Option Nat :=
  toolShiftAux msgs.length (msgs.drop cutoff) cutoff

/-- The candidate set of compaction: the buffer minus the system message
(index 0) and, when `preserve_last_N_messages` is on, minus the last
`MESSAGE_SUMMARY_TRUNC_KEEP_N_LAST` messages
(`candidate_messages_to_summarize`). -/
def candidateMessages (keepN : Nat) (preserve : Bool) (msgs : List Msg) : List Msg :=
  if preserve then pySliceToNeg keepN (msgs.drop 1) else msgs.drop 1

/-- The token counts running parallel to `candidateMessages`
(`token_counts`, after the same two slicing steps). -/
def candidateTokenCounts (cfg : SummCfg) (preserve : Bool) (msgs : List Msg) : List Nat :=
  if preserve then pySliceToNeg cfg.keepN ((msgs.map cfg.tokens).drop 1)
  else (msgs.map cfg.tokens).drop 1

/-- Embeds `desired_token_count_to_summarize`: the token budget computed from the
non-system part of the buffer. -/
def desiredTokens (cfg : SummCfg) (msgs : List Msg) : Nat :=
  cfg.desiredOf ((msgs.map cfg.tokens).drop 1).sum

/-- The provisional cutoff: the token walk over the candidate set,
plus one to account for the system message. -/
def provisionalCutoff (cfg : SummCfg) (preserve : Bool) (msgs : List Msg) : Nat :=
  walkCutoff (desiredTokens cfg msgs) (candidateTokenCounts cfg preserve msgs) 0 0 + 1

/-- The fully adjusted cutoff: the user shift, then (when
`disallow_tool_as_first` is on) the tool/function loop; `none` means the
tool/function loop raised `IndexError`. -/
def adjustedCutoff (cfg : SummCfg) (preserve disallowToolAsFirst : Bool)
    (msgs : List Msg) : Option Nat :=
  let c1 := userShift msgs (provisionalCutoff cfg preserve msgs)
  if disallowToolAsFirst then toolShift msgs c1 else some c1

/-- Embeds `Agent.summarize_messages_inplace` as a state transformer: returns the
buffer after the run together with the fault it raised, if any. Both
raises happen before `_trim_messages`/`_prepend_to_messages` run, so on a
fault the buffer is returned unchanged. On success the summarized prefix
`messages[1:cutoff]` is replaced by the single packaged summary message
(a `user`-role message), via `trim(cutoff)` then `prepend([summary])`. -/
def summarize_messages_inplace (cfg : SummCfg)
    (preserve disallowToolAsFirst : Bool) (msgs : List Msg) :
    List Msg × Option SummErr :=
  if (candidateMessages cfg.keepN preserve msgs).length = 0 then
    (msgs, some SummErr.insufficientMessages)
  else
    match adjustedCutoff cfg preserve disallowToolAsFirst msgs with
    | none => (msgs, some SummErr.indexError)
    | some cutoff =>
      if ((msgs.take cutoff).drop 1).length ≤ 1 then
        (msgs, some SummErr.insufficientMessages)
      else
        (_prepend_to_messages [⟨Role.user, cfg.summaryText, cfg.summaryId⟩]
          (_trim_messages cutoff msgs), none)

/-! ## Model-call retry policy (`Agent._get_ai_reply`) -/

/-- Finish reasons of a chat-completion choice; `otherReason` covers any
string outside the recognized set, and a missing finish reason is
`Option.none` at the use site. -/
inductive FinishReason where
  | stop
  | functionCallReason
  | toolCallsReason
  | lengthReason
  | otherReason (s : String)
deriving DecidableEq, Repr

/-- A response choice: only the finish reason matters to the retry policy. -/
structure Choice where
  finish_reason : Option FinishReason
deriving DecidableEq, Repr

/-- A chat-completion response; a `none` entry models a `None` element in
the `choices` list (`response.choices[0] is None`). -/
structure ChatResponse where
  choices : List (Option Choice)
deriving DecidableEq, Repr

/-- The classification `_get_ai_reply` applies to one response:
`retryable` is the `ValueError` class (empty choice list, null first
choice, or a bad finish reason other than `length`), `fatalLength` is the
`RuntimeError` raised for finish reason `length`, `good` returns the
response. -/
inductive CallClass where
  | good
  | retryable
  | fatalLength
deriving DecidableEq, Repr

/-- The per-response classification of `_get_ai_reply`. -/
def classifyResponse (r : ChatResponse) : CallClass :=
  match r.choices.head? with
  | none => CallClass.retryable
  | some none => CallClass.retryable
  | some (some c) =>
    if c.finish_reason = some FinishReason.stop ∨
        c.finish_reason = some FinishReason.functionCallReason ∨
        c.finish_reason = some FinishReason.toolCallsReason then
      CallClass.good
    else if c.finish_reason = some FinishReason.lengthReason then
      CallClass.fatalLength
    else
      CallClass.retryable

/-- Faults escaping `_get_ai_reply`: the non-retryable
`RuntimeError("Finish reason was length ...")` and the terminal
`Exception("Retries exhausted ...")`. -/
inductive ReplyErr where
  | lengthNonRetryable
  | retriesExhausted
deriving DecidableEq, Repr

/-- The retry loop `for attempt in range(1, empty_response_retry_limit + 1)`
of `_get_ai_reply`. `respOf attempt` is the external `create(...)` result
of that attempt. A retryable fault sleeps and moves to the next attempt
unless `attempt >= limit`, in which case the loop breaks and the terminal
"Retries exhausted" fault is raised; a `length` finish reason is re-raised
immediately by the `except Exception` arm. The first component is the
number of attempts consumed. -/
def _get_ai_reply_loop (respOf : Nat → ChatResponse) (limit : Nat) :
    (attempt : Nat) → Nat × Except ReplyErr ChatResponse
  | attempt =>
    if attempt > limit then (attempt - 1, Except.error ReplyErr.retriesExhausted)
    else
      match classifyResponse (respOf attempt) with
      | CallClass.good => (attempt, Except.ok (respOf attempt))
      | CallClass.fatalLength => (attempt, Except.error ReplyErr.lengthNonRetryable)
      | CallClass.retryable =>
        if attempt ≥ limit then (attempt, Except.error ReplyErr.retriesExhausted)
        else _get_ai_reply_loop respOf limit (attempt + 1)
termination_by attempt => limit + 1 - attempt
decreasing_by
  simp_wf
  omega

/-- Embeds `Agent._get_ai_reply`: the retry loop started at attempt 1. -/
def _get_ai_reply (respOf : Nat → ChatResponse) (limit : Nat) :
    Nat × Except ReplyErr ChatResponse :=
  _get_ai_reply_loop respOf limit 1

/-! ## Tool dispatcher (`Agent._handle_ai_response`) -/

/-- Modelled from the spec: `package_function_response` (`letta/system.py`,
not under `src/`) packages a success flag and a message into the content
of a tool-role message ("produce a tool-role error message"; the content
signals failure through the flag). -/
structure FuncResponse where
  ok : Bool
  message : String
deriving DecidableEq, Repr

/-- The raw `request_heartbeat` value found in the parsed function
arguments: absent, a boolean, a string, or some other JSON value. -/
inductive HbField where
  | absent
  | boolVal (b : Bool)
  | strVal (s : String)
  | otherVal
deriving DecidableEq, Repr

/-- The `request_heartbeat` handling of `_handle_ai_response`:
`function_args.pop("request_heartbeat", None)`; a string is accepted as
`True` when it lower-cases and strips to `"true"`; any remaining non-bool
value (including `None`) falls back to `False`. -/
def parseHeartbeat (v : HbField) : Bool :=
  match v with
  | HbField.boolVal b => b
  | HbField.strVal s => if s.toLower.trim = "true" then true else false
  | HbField.absent => false
  | HbField.otherVal => false

/-- Parsed function arguments: the `request_heartbeat` field plus an
opaque payload standing for the remaining keys. -/
structure ArgsObj where
  request_heartbeat : HbField
  payload : String
deriving DecidableEq, Repr

/-- The `function` part of a model tool call: name and raw JSON argument
string. -/
structure ToolCallFunc where
  name : String
  arguments : String
deriving DecidableEq, Repr

/-- One tool call of the model response (`response_message.tool_calls[i]`). -/
structure ToolCallObj where
  callId : String
  func : ToolCallFunc
deriving DecidableEq, Repr

/-- The model response message handed to `_handle_ai_response`: its
content (inner monologue), its tool calls, and whether the deprecated
`function_call` field is set (which makes the handler raise
`DeprecationWarning`). -/
structure ResponseMessage where
  content : Option String
  tool_calls : Option (List ToolCallObj)
  hasDeprecatedFunctionCall : Bool
deriving DecidableEq, Repr

/-- A message produced by `_handle_ai_response`: either the assistant
message recreated from the model response, or a tool-role message whose
content is a packaged function response. -/
inductive HMsgContent where
  | fromModel (content : Option String)
  | packaged (fr : FuncResponse)
deriving DecidableEq, Repr

/-- An output message of `_handle_ai_response` (`Message.dict_to_message`
result): role, the tool name on tool-role messages, content, and the tool
call id it responds to. -/
structure HMsg where
  role : Role
  name : Option String
  content : HMsgContent
  callId : Option String
deriving DecidableEq, Repr

/-- The agent-side collaborators `_handle_ai_response` consults:
the declared tool set (`agent_state.tools` names), `parse_json`
(`letta.utils`; `none` = the JSON raised), the composite
`execute_tool_and_persist_state` + `validate_function_response`
(`.ok` = validated response string, `.error` = the exception message), and
the tool-rule solver predicates `has_children_tools` / `is_terminal_tool`
(`letta/helpers.py`, modelled from the spec: "terminal tools force
heartbeat=false; tools with declared children force heartbeat=true"). -/
structure HandleCtx where
  toolNames : List String
  parseJson : String → Option ArgsObj
  execTool : String → ArgsObj → Except String String
  hasChildrenTools : Option String → Bool
  isTerminalTool : Option String → Bool

/-- Faults raised (not returned) by `_handle_ai_response`: the
`DeprecationWarning` for a legacy `function_call` field. -/
inductive HandleErr where
  | deprecationWarning
deriving DecidableEq, Repr

/-- The tool-rule override at the end of `_handle_ai_response`:
`if has_children_tools(name): heartbeat_request = True`
`elif is_terminal_tool(name): heartbeat_request = False`. -/
def applyToolRuleHeartbeat (ctx : HandleCtx) (functionName : Option String)
    (hb : Bool) : Bool :=
  if ctx.hasChildrenTools functionName then true
  else if ctx.isTerminalTool functionName then false
  else hb

/-- Embeds `Agent._handle_ai_response` (with the default
`override_tool_call_id=False`): returns `(messages, heartbeat_request,
function_failed)`. The three recoverable failure paths (unknown tool name,
bad JSON arguments, execution fault) each append one tool-role message
with a failure-flagged packaged content and return `(msgs, False, True)`
before the tool-rule override runs; the success path and the plain
assistant reply run the override. Interface calls and the
buffer/solver-state side effects (`rebuild_system_prompt`,
`update_tool_usage`, `last_function_response`) do not affect the returned
triple and are not modelled. -/
def _handle_ai_response (ctx : HandleCtx) (rm : ResponseMessage) :
    Except HandleErr (List HMsg × Bool × Bool) :=
  if rm.hasDeprecatedFunctionCall then Except.error HandleErr.deprecationWarning
  else
    match rm.tool_calls with
    | some (tc :: _) =>
      -- ">1 tool call not supported, using index=0 only": the list is
      -- truncated to its first element (`tc`) before any dispatch
      if tc.func.name ∉ ctx.toolNames then
        -- Failure case 1: function name is wrong (not in agent_state.tools)
        Except.ok ([⟨Role.assistant, none, HMsgContent.fromModel rm.content, none⟩,
          ⟨Role.tool, some tc.func.name,
            HMsgContent.packaged ⟨false, "No function named " ++ tc.func.name⟩,
            some tc.callId⟩],
          false, true)
      else
        match ctx.parseJson tc.func.arguments with
        | none =>
          -- Failure case 2: function args are bad JSON
          Except.ok ([⟨Role.assistant, none, HMsgContent.fromModel rm.content, none⟩,
            ⟨Role.tool, some tc.func.name,
              HMsgContent.packaged
                ⟨false, "Error parsing JSON for function '" ++ tc.func.name ++
                  "' arguments"⟩,
              some tc.callId⟩],
            false, true)
        | some args =>
          match ctx.execTool tc.func.name args with
          | Except.error emsg =>
            -- Failure case 3: function failed during execution
            Except.ok ([⟨Role.assistant, none, HMsgContent.fromModel rm.content, none⟩,
              ⟨Role.tool, some tc.func.name,
                HMsgContent.packaged
                  ⟨false, "Error calling function " ++ tc.func.name ++ ": " ++ emsg⟩,
                some tc.callId⟩],
              false, true)
          | Except.ok respStr =>
            -- success: the tool-rule override is applied to the
            -- model-supplied request_heartbeat
            Except.ok ([⟨Role.assistant, none, HMsgContent.fromModel rm.content, none⟩,
              ⟨Role.tool, some tc.func.name, HMsgContent.packaged ⟨true, respStr⟩,
                some tc.callId⟩],
              applyToolRuleHeartbeat ctx (some tc.func.name)
                (parseHeartbeat args.request_heartbeat), false)
    | _ =>
      -- Standard non-function reply; the override still runs with
      -- function_name = None
      Except.ok ([⟨Role.assistant, none, HMsgContent.fromModel rm.content, none⟩],
        applyToolRuleHeartbeat ctx none false, false)

/-- The chaining decision at the bottom of `Agent.step`: the loop issues
another inner step (injecting a synthetic user message) exactly when
chaining is enabled, the `max_chaining_steps` cap is not exceeded, and any
of the token warning, function failure, or heartbeat request fired;
otherwise it breaks. -/
def stepChains (chaining overCap tokenWarning functionFailed heartbeatRequest : Bool) : Bool :=
  chaining && !overCap && (tokenWarning || functionFailed || heartbeatRequest)

/-! ## Tool-rule configuration check (`Agent.check_tool_rules`) -/

/-- The tool-rule variants of the data model (`letta.schemas.tool_rule`):
`initRule` must run first, `terminalRule` ends the chain, `childrenRule`
constrains the successors of a tool. -/
inductive ToolRule where
  | initRule (toolName : String)
  | terminalRule (toolName : String)
  | childrenRule (toolName : String) (children : List String)
deriving DecidableEq, Repr

/-- Modelled from the spec: `ToolRulesSolver` (`letta/helpers.py`, not
under `src/`) collects the `InitToolRule` entries of the agent's tool
rules into its `init_tool_rules` list ("at most one InitRule may fire per
conversation start when the model lacks structured-output support"). -/
def init_tool_rules (rules : List ToolRule) : List ToolRule :=
  rules.filter fun r =>
    match r with
    | ToolRule.initRule _ => true
    | _ => false

/-- The configuration fault of `Agent.check_tool_rules`:
`ValueError("Multiple initial tools are not supported for non-structured models ...")`. -/
inductive ConfigError where
  | multipleInitTools
deriving DecidableEq, Repr

/-- Embeds `Agent.check_tool_rules`, called from `Agent.__init__` before any step
runs: on a model outside `STRUCTURED_OUTPUT_MODELS` with more than one
init tool rule it raises; otherwise it records
`supports_structured_output` (the returned boolean). -/
def check_tool_rules (model : String) (structuredOutputModels : List String)
    (rules : List ToolRule) : Except ConfigError Bool :=
  if model ∉ structuredOutputModels then
    if (init_tool_rules rules).length > 1 then Except.error ConfigError.multipleInitTools
    else Except.ok false
  else Except.ok true

/-! ## System-prompt rebuild (`Agent.rebuild_system_prompt`)

Strings are handled as character lists here so that the substring check
(Python `in`) is `List.IsInfix` and the `str.format_map` template
substitution can be reasoned about. -/

/-- The reserved template variable `IN_CONTEXT_MEMORY_KEYWORD` wrapped in
braces (`"{" + IN_CONTEXT_MEMORY_KEYWORD + "}"` with keyword
`CORE_MEMORY`). -/
def icmKeyword : List Char := "\x7bCORE_MEMORY\x7d".data

/-- A newline, used when appending the missing keyword and when joining
the metadata block with the compiled memory. -/
def nlChar : List Char := "\n".data

/-- Embeds `str.format_map` with the single memory variable: every occurrence of
the pattern is replaced by the value, scanning left to right. -/
def replaceAll (pat val : List Char) : List Char → List Char
  | [] => []
  | c :: rest =>
    if pat <+: (c :: rest) then val ++ replaceAll pat val (rest.drop (pat.length - 1))
    else c :: replaceAll pat val rest
termination_by l => l.length
decreasing_by
  · simp only [List.length_cons, List.length_drop]
    omega
  · simp

/-- Embeds `compile_system_message`: build
`full_memory_string = metadata_block + "\n" + memory.compile()`, append
the keyword to the prompt when missing (`append_icm_if_missing=True`, as
both call sites pass), and render the template. -/
def compile_system_message (systemPrompt metadataBlock memCompiled : List Char) :
    List Char :=
  replaceAll icmKeyword (metadataBlock ++ nlChar ++ memCompiled)
    (if icmKeyword <:+: systemPrompt then systemPrompt
     else systemPrompt ++ nlChar ++ icmKeyword)

/-- The state `rebuild_system_prompt` reads and writes: the current system
message (content and id), the compiled core memory
(`agent_state.memory.compile()`), the raw system prompt
(`agent_state.system`), and a counter of messages persisted through
`message_manager.create_message` (incremented by the swap). -/
structure RebuildState where
  headContent : List Char
  headId : Nat
  memCompiled : List Char
  systemPrompt : List Char
  createdCount : Nat
deriving DecidableEq, Repr

/-- Embeds `Agent.rebuild_system_prompt`: skip when the compiled memory is
already a substring of the current system message and `force` is false;
otherwise recompute the system message (the metadata block — timestamp
plus recall/archival counts — is an external input, passed per call) and,
only when the recomputed content differs from the current one
(`united_diff` returns a non-empty diff exactly when the strings differ),
create the new message and swap it in at index 0. -/
def rebuild_system_prompt (force : Bool) (metadataBlock : List Char)
    (freshId : Nat) (st : RebuildState) : RebuildState :=
  if st.memCompiled <:+: st.headContent ∧ force = false then st
  else if compile_system_message st.systemPrompt metadataBlock st.memCompiled =
      st.headContent then st
  else { st with
    headContent := compile_system_message st.systemPrompt metadataBlock st.memCompiled
    headId := freshId
    createdCount := st.createdCount + 1 }

/-! ## Concrete instances used in the closed theorems -/

/-- Token counter for the token-count counterexample: the summary message
(id 100) counts 10 tokens, every other message 1 token. -/
def cexTokens : Msg → Nat := fun m => if m.mid = 100 then 10 else 1

/-- Compaction inputs for the token-count counterexample: fraction 1/2
(`int(count * 0.5)` on naturals), keep-last-3, a 10-token summary. -/
def cexSummCfg : SummCfg := ⟨cexTokens, 3, fun n => n / 2, "S", 100⟩

/-- A system message followed by six 1-token conversation messages, none
of them tool results. -/
def cexBuffer : List Msg :=
  [⟨Role.system, "", 0⟩, ⟨Role.user, "", 1⟩, ⟨Role.assistant, "", 2⟩,
   ⟨Role.user, "", 3⟩, ⟨Role.user, "", 4⟩, ⟨Role.assistant, "", 5⟩,
   ⟨Role.user, "", 6⟩]

/-- Compaction inputs for the out-of-bounds run: every message 1 token,
fraction 1/2, keep-last-3. -/
def bugSummCfg : SummCfg := ⟨fun _ => 1, 3, fun n => n / 2, "s", 100⟩

/-- A buffer whose entire non-system part consists of tool results: the
cutoff-adjustment loop walks off the end of the buffer. -/
def bugBuffer : List Msg :=
  [⟨Role.system, "", 0⟩, ⟨Role.tool, "", 1⟩, ⟨Role.tool, "", 2⟩,
   ⟨Role.tool, "", 3⟩, ⟨Role.tool, "", 4⟩, ⟨Role.tool, "", 5⟩]

/-- Compaction inputs for the witnesses: every ordinary message 5 tokens,
the summary message (id 100) 1 token. -/
def wSummCfg : SummCfg := ⟨fun m => if m.mid = 100 then 1 else 5, 3, fun n => n / 2, "S", 100⟩

/-- The witness buffer on which compaction succeeds. -/
def wBuffer : List Msg := cexBuffer

/-- The buffer compaction produces on `wBuffer` under `wSummCfg`. -/
def wBufferAfter : List Msg := (summarize_messages_inplace wSummCfg true true wBuffer).1

/-- An agent context with a single declared tool `send_message` and
inert collaborators, for the unknown-tool-name runs. -/
def unknownToolCtx : HandleCtx :=
  ⟨["send_message"], fun _ => none, fun _ _ => Except.error "",
   fun _ => false, fun _ => false⟩

/-- A model response requesting the unregistered tool `does_not_exist`. -/
def unknownToolResponse : ResponseMessage :=
  ⟨none, some [⟨"call-1", ⟨"does_not_exist", "\x7b\x7d"⟩⟩], false⟩

/-- An agent context whose single tool `t` both has children tools and is
terminal, with collaborators that parse a model-supplied
`request_heartbeat = false` and execute successfully: exercises the
precedence of the children override. -/
def overrideCtx : HandleCtx :=
  ⟨["t"], fun _ => some ⟨HbField.boolVal false, ""⟩, fun _ _ => Except.ok "r",
   fun n => decide (n = some "t"), fun n => decide (n = some "t")⟩

/-- A model response calling tool `t`. -/
def overrideResponse : ResponseMessage :=
  ⟨some "thinking", some [⟨"call-2", ⟨"t", "\x7b\x7d"⟩⟩], false⟩

/-! ## Helper lemmas -/

theorem sysFirst_trim (num : Nat) (msgs : List Msg) (h : sysFirst msgs) :
    sysFirst (_trim_messages num msgs) := by
  cases msgs with
  | nil => exact absurd h (by simp [sysFirst])
  | cons m rest => simpa [_trim_messages, sysFirst] using h

theorem sysFirst_prepend (added : List Msg) (msgs : List Msg) (h : sysFirst msgs) :
    sysFirst (_prepend_to_messages added msgs) := by
  cases msgs with
  | nil => exact absurd h (by simp [sysFirst])
  | cons m rest => simpa [_prepend_to_messages, sysFirst] using h

theorem sysFirst_append (added : List Msg) (msgs : List Msg) (h : sysFirst msgs) :
    sysFirst (_append_to_messages added msgs) := by
  cases msgs with
  | nil => exact absurd h (by simp [sysFirst])
  | cons m rest => simpa [_append_to_messages, sysFirst] using h

theorem sysFirst_swap (c : String) (i : Nat) (msgs : List Msg) :
    sysFirst (_swap_system_message_in_buffer c i msgs) := by
  simp [_swap_system_message_in_buffer, sysFirst]

/-- Eliminate a successful `summarize_messages_inplace` run into its
cutoff and the shape of the produced buffer. -/
theorem summarize_ok_elim (cfg : SummCfg) (p d : Bool) (msgs buf' : List Msg)
    (h : summarize_messages_inplace cfg p d msgs = (buf', none)) :
    ∃ c, adjustedCutoff cfg p d msgs = some c ∧
      2 ≤ ((msgs.take c).drop 1).length ∧
      buf' = _prepend_to_messages [⟨Role.user, cfg.summaryText, cfg.summaryId⟩]
        (_trim_messages c msgs) := by
  unfold summarize_messages_inplace at h
  split at h
  · simp at h
  · split at h
    · simp at h
    next c hc =>
      split at h
      next hw => simp at h
      next hw =>
        refine ⟨c, hc, by omega, ?_⟩
        exact (Prod.mk.injEq _ _ _ _ ▸ h).1.symm

/-- A raising `summarize_messages_inplace` run leaves the buffer as it
found it: both raises happen before `trim`/`prepend`. -/
theorem summarize_err_buffer (cfg : SummCfg) (p d : Bool) (msgs buf : List Msg)
    (e : SummErr) (h : summarize_messages_inplace cfg p d msgs = (buf, some e)) :
    buf = msgs := by
  unfold summarize_messages_inplace at h
  split at h
  · exact ((Prod.mk.injEq _ _ _ _ ▸ h).1).symm
  · split at h
    · exact ((Prod.mk.injEq _ _ _ _ ▸ h).1).symm
    · split at h
      · exact ((Prod.mk.injEq _ _ _ _ ▸ h).1).symm
      · simp at h

/-! ## Claim theorems -/

/-- C2: every reachable buffer state keeps the system message first —
each of `_trim_messages`, `_prepend_to_messages`, `_append_to_messages`,
`_swap_system_message_in_buffer` and `summarize_messages_inplace`
preserves `buffer[0].role == system`. -/
theorem buffer_system_first_invariant :
    (∀ num msgs, sysFirst msgs → sysFirst (_trim_messages num msgs)) ∧
    (∀ added msgs, sysFirst msgs → sysFirst (_prepend_to_messages added msgs)) ∧
    (∀ added msgs, sysFirst msgs → sysFirst (_append_to_messages added msgs)) ∧
    (∀ c i msgs, sysFirst msgs → sysFirst (_swap_system_message_in_buffer c i msgs)) ∧
    (∀ cfg p d msgs, sysFirst msgs →
      sysFirst (summarize_messages_inplace cfg p d msgs).1) := by
  refine ⟨sysFirst_trim, sysFirst_prepend, sysFirst_append,
    fun c i msgs _ => sysFirst_swap c i msgs, ?_⟩
  intro cfg p d msgs h
  rcases hrun : summarize_messages_inplace cfg p d msgs with ⟨buf, err⟩
  simp only [hrun]
  cases err with
  | none =>
    obtain ⟨cc, _hc, _hw, hbuf⟩ := summarize_ok_elim cfg p d msgs buf hrun
    rw [hbuf]
    exact sysFirst_prepend _ _ (sysFirst_trim _ _ h)
  | some e =>
    rw [summarize_err_buffer cfg p d msgs buf e hrun]
    exact h

/-- Witness for C2 at concrete buffers. -/
theorem buffer_system_first_invariant_witness :
    sysFirst (_trim_messages 2 cexBuffer) ∧
    sysFirst (_prepend_to_messages [⟨Role.user, "u", 9⟩] cexBuffer) ∧
    sysFirst (_append_to_messages [⟨Role.user, "u", 9⟩] cexBuffer) ∧
    sysFirst (_swap_system_message_in_buffer "sys2" 10 cexBuffer) ∧
    sysFirst (summarize_messages_inplace wSummCfg true true wBuffer).1 :=
  ⟨buffer_system_first_invariant.1 2 cexBuffer (by decide),
   buffer_system_first_invariant.2.1 _ cexBuffer (by decide),
   buffer_system_first_invariant.2.2.1 _ cexBuffer (by decide),
   buffer_system_first_invariant.2.2.2.1 "sys2" 10 cexBuffer (by decide),
   buffer_system_first_invariant.2.2.2.2 wSummCfg true true wBuffer (by decide)⟩

/-- C6: `summarize_messages_inplace` raises the
`ContextWindowExceededError` ("Not enough messages ...") exactly when the
candidate set is empty or the post-adjustment window `messages[1:cutoff]`
has at most one message; on any raise the buffer is left unchanged. -/
theorem summarize_insufficient_iff (cfg : SummCfg) (p d : Bool) (msgs : List Msg) :
    ((summarize_messages_inplace cfg p d msgs).2 = some SummErr.insufficientMessages ↔
      candidateMessages cfg.keepN p msgs = [] ∨
        ∃ c, adjustedCutoff cfg p d msgs = some c ∧
          ((msgs.take c).drop 1).length ≤ 1) ∧
    (∀ e buf, summarize_messages_inplace cfg p d msgs = (buf, some e) → buf = msgs) := by
  refine ⟨?_, fun e buf h => summarize_err_buffer cfg p d msgs buf e h⟩
  unfold summarize_messages_inplace
  split
  next hc => exact iff_of_true rfl (Or.inl (List.length_eq_zero.mp hc))
  next hc =>
    split
    next hadj =>
      refine iff_of_false (by simp) ?_
      rintro (h | ⟨c, hcc, _⟩)
      · exact hc (by simp [h])
      · rw [hadj] at hcc
        exact Option.noConfusion hcc
    next c hadj =>
      split
      next hw => exact iff_of_true rfl (Or.inr ⟨c, hadj, hw⟩)
      next hw =>
        refine iff_of_false (by simp) ?_
        rintro (h | ⟨c', hcc, hw'⟩)
        · exact hc (by simp [h])
        · rw [hadj] at hcc
          injection hcc with h'
          exact hw (h' ▸ hw')

/-- Witness for C6: a buffer with an empty candidate set raises and is
left unchanged. -/
theorem summarize_insufficient_iff_witness :
    (summarize_messages_inplace bugSummCfg true true [⟨Role.system, "", 0⟩]).2 =
      some SummErr.insufficientMessages ∧
    ([⟨Role.system, "", 0⟩] : List Msg) = [⟨Role.system, "", 0⟩] :=
  ⟨(summarize_insufficient_iff bugSummCfg true true _).1.mpr (Or.inl (by decide)),
   (summarize_insufficient_iff bugSummCfg true true
      [⟨Role.system, "", 0⟩]).2 SummErr.insufficientMessages
      [⟨Role.system, "", 0⟩] (by decide)⟩

/-- C7 counterexample: a successful compaction after which the total
token count of the buffer is NOT strictly smaller — the 10-token summary
message replaces a 3-message window worth 3 tokens (total goes 7 → 14). -/
theorem summarize_token_increase_counterexample :
    (summarize_messages_inplace cexSummCfg true true cexBuffer).2 = none ∧
    ¬ (((summarize_messages_inplace cexSummCfg true true cexBuffer).1.map
          cexSummCfg.tokens).sum <
        (cexBuffer.map cexSummCfg.tokens).sum) := by decide

/-- C7 (amended): a successful compaction replaces the summarized window
`messages[1:cutoff]` (at least two messages) by exactly one summary
message, so the buffer's message count strictly decreases; the total
token count strictly decreases whenever the summary message's token count
is below the window's total (which the code does not enforce). -/
theorem summarize_success_shrinks (cfg : SummCfg) (p d : Bool) (msgs buf' : List Msg)
    (h : summarize_messages_inplace cfg p d msgs = (buf', none)) :
    buf'.length < msgs.length ∧
    (∀ c, adjustedCutoff cfg p d msgs = some c →
      cfg.tokens ⟨Role.user, cfg.summaryText, cfg.summaryId⟩ <
        (((msgs.take c).drop 1).map cfg.tokens).sum →
      (buf'.map cfg.tokens).sum < (msgs.map cfg.tokens).sum) := by
  obtain ⟨c, hc, hw, hbuf⟩ := summarize_ok_elim cfg p d msgs buf' h
  have hw' : 2 ≤ min c msgs.length - 1 := by simpa using hw
  have h3 : 3 ≤ c ∧ 3 ≤ msgs.length := by
    rcases le_total c msgs.length with hcl | hcl
    · rw [min_eq_left hcl] at hw'
      omega
    · rw [min_eq_right hcl] at hw'
      omega
  obtain ⟨m0, rest, rfl⟩ : ∃ m0 rest, msgs = m0 :: rest := by
    cases msgs with
    | nil => simp at h3
    | cons a l => exact ⟨a, l, rfl⟩
  obtain ⟨k, rfl⟩ : ∃ k, c = k + 1 := ⟨c - 1, by omega⟩
  simp only [List.length_cons] at h3
  have hk : 2 ≤ k := by omega
  have hr : 2 ≤ rest.length := by omega
  have hbuf' : buf' = m0 :: (⟨Role.user, cfg.summaryText, cfg.summaryId⟩ : Msg) ::
      rest.drop k := by
    rw [hbuf]
    simp [_prepend_to_messages, _trim_messages]
  constructor
  · rw [hbuf']
    simp only [List.length_cons, List.length_drop]
    omega
  · intro c' hc' hlt
    rw [hc] at hc'
    injection hc' with hc''
    subst hc''
    rw [List.take_succ_cons, List.drop_one, List.tail_cons] at hlt
    rw [hbuf']
    simp only [List.map_cons, List.sum_cons, List.map_drop, List.map_take] at hlt ⊢
    have hsd := List.sum_take_add_sum_drop (rest.map cfg.tokens) k
    omega

/-- Witness for C7 (amended): on the witness buffer a 1-token summary
replaces a 15-token window, and both the message count and the token
count shrink. -/
theorem summarize_success_shrinks_witness :
    wBufferAfter.length < wBuffer.length ∧
    (wBufferAfter.map wSummCfg.tokens).sum < (wBuffer.map wSummCfg.tokens).sum :=
  ⟨(summarize_success_shrinks wSummCfg true true wBuffer wBufferAfter (by decide)).1,
   (summarize_success_shrinks wSummCfg true true wBuffer wBufferAfter (by decide)).2
     4 (by decide) (by decide)⟩

/-- C3 (code bug): on a buffer whose non-system part is all tool results,
the cutoff-adjustment loop of `summarize_messages_inplace` evaluates
`self.messages[cutoff]` with `cutoff == len(self.messages)` — the
`cutoff < len` guard in the `while` condition is checked only after the
subscript — and raises an uncaught `IndexError` instead of the documented
in-bounds adjustment. -/
theorem summarize_adjustment_index_error :
    summarize_messages_inplace bugSummCfg true true bugBuffer =
      (bugBuffer, some SummErr.indexError) := by decide

/-- If every attempt classifies as retryable, the loop consumes every
remaining attempt and ends in the terminal "Retries exhausted" fault. -/
theorem get_ai_reply_loop_retryable (respOf : Nat → ChatResponse) (limit : Nat)
    (hall : ∀ a, classifyResponse (respOf a) = CallClass.retryable) :
    ∀ n attempt, limit - attempt = n → 1 ≤ attempt → attempt ≤ limit →
      _get_ai_reply_loop respOf limit attempt =
        (limit, Except.error ReplyErr.retriesExhausted) := by
  intro n
  induction n with
  | zero =>
    intro attempt h0 h1 h2
    have heq : attempt = limit := by omega
    subst heq
    rw [_get_ai_reply_loop]
    simp [hall attempt]
  | succ n ih =>
    intro attempt h0 h1 h2
    have hlt : attempt < limit := by omega
    rw [_get_ai_reply_loop]
    simp only [hall attempt]
    rw [if_neg (by omega), if_neg (by omega)]
    exact ih (attempt + 1) (by omega) (by omega) (by omega)

/-- C4: a first-choice finish reason `length` classifies as the fatal
(`RuntimeError`) class; `_get_ai_reply` then aborts on the very attempt
that saw it (one attempt consumed, no retries); empty choice lists
classify as retryable and burn through all attempts into the distinct
"Retries exhausted" fault. -/
theorem get_ai_reply_length_nonretryable :
    (∀ (r : ChatResponse) (c : Choice), r.choices.head? = some (some c) →
        c.finish_reason = some FinishReason.lengthReason →
        classifyResponse r = CallClass.fatalLength) ∧
    (∀ (respOf : Nat → ChatResponse) (limit : Nat), 1 ≤ limit →
        classifyResponse (respOf 1) = CallClass.fatalLength →
        _get_ai_reply respOf limit = (1, Except.error ReplyErr.lengthNonRetryable)) ∧
    (∀ r : ChatResponse, r.choices = [] → classifyResponse r = CallClass.retryable) ∧
    (∀ (respOf : Nat → ChatResponse) (limit : Nat), 1 ≤ limit →
        (∀ a, classifyResponse (respOf a) = CallClass.retryable) →
        _get_ai_reply respOf limit = (limit, Except.error ReplyErr.retriesExhausted)) ∧
    ReplyErr.lengthNonRetryable ≠ ReplyErr.retriesExhausted := by
  refine ⟨?_, ?_, ?_, ?_, by decide⟩
  · intro r c hhead hfin
    unfold classifyResponse
    rw [hhead]
    simp [hfin]
  · intro respOf limit hlim hfatal
    unfold _get_ai_reply
    rw [_get_ai_reply_loop]
    rw [if_neg (by omega)]
    simp [hfatal]
  · intro r hr
    unfold classifyResponse
    rw [hr]
    rfl
  · intro respOf limit hlim hall
    exact get_ai_reply_loop_retryable respOf limit hall (limit - 1) 1 rfl le_rfl hlim

/-- Witness for C4: a response whose only choice finishes with `length`
aborts after exactly one attempt with the non-retryable fault. -/
theorem get_ai_reply_length_nonretryable_witness :
    _get_ai_reply (fun _ => ⟨[some ⟨some FinishReason.lengthReason⟩]⟩) 3 =
      (1, Except.error ReplyErr.lengthNonRetryable) :=
  get_ai_reply_length_nonretryable.2.1 _ 3 (by omega) (by decide)

/-- The value substituted for an occurring pattern is an infix of the
rendered template. -/
theorem replaceAll_contains_value (pat val : List Char) (hpat : pat ≠ []) :
    ∀ n (s : List Char), s.length ≤ n → pat <:+: s → val <:+: replaceAll pat val s := by
  intro n
  induction n with
  | zero =>
    intro s hs hinf
    have hnil : s = [] := List.length_eq_zero.mp (Nat.le_zero.mp hs)
    subst hnil
    exact absurd (List.infix_nil.mp hinf) hpat
  | succ n ih =>
    intro s hs hinf
    cases s with
    | nil => exact absurd (List.infix_nil.mp hinf) hpat
    | cons a rest =>
      rw [replaceAll]
      split
      · exact (List.prefix_append val _).isInfix
      · next hnp =>
        obtain ⟨t, u, htu⟩ := hinf
        cases t with
        | nil =>
          exact absurd ⟨u, by simpa using htu⟩ hnp
        | cons b t' =>
          simp only [List.cons_append] at htu
          injection htu with hb hrest
          have hrec := ih rest (by simp only [List.length_cons] at hs; omega)
            ⟨t', u, hrest⟩
          exact List.infix_cons hrec

/-- The compiled memory string is always a substring of the compiled
system message: `full_memory_string` ends in `memory.compile()` and is
substituted for the (possibly appended) keyword. -/
theorem compile_system_message_contains_memory (p m mem : List Char) :
    mem <:+: compile_system_message p m mem := by
  unfold compile_system_message
  have hmem : mem <:+: m ++ nlChar ++ mem := ⟨m ++ nlChar, [], by simp⟩
  have hkw : icmKeyword ≠ [] := by decide
  have hocc : icmKeyword <:+:
      (if icmKeyword <:+: p then p else p ++ nlChar ++ icmKeyword) := by
    split
    · assumption
    · exact ⟨p ++ nlChar, [], by simp⟩
  exact hmem.trans (replaceAll_contains_value icmKeyword (m ++ nlChar ++ mem) hkw _ _ le_rfl hocc)

/-- The skip branch of `rebuild_system_prompt`: compiled memory already a
substring of the current system message, `force` false — no mutation. -/
theorem rebuild_skip (st : RebuildState) (meta : List Char) (fid : Nat)
    (h : st.memCompiled <:+: st.headContent) :
    rebuild_system_prompt false meta fid st = st := by
  unfold rebuild_system_prompt
  rw [if_pos ⟨h, rfl⟩]

/-- After any non-forced rebuild, the compiled memory is a substring of
the (possibly new) system message at index 0. -/
theorem rebuild_establishes_substring (st : RebuildState) (meta : List Char) (fid : Nat) :
    (rebuild_system_prompt false meta fid st).memCompiled <:+:
      (rebuild_system_prompt false meta fid st).headContent := by
  unfold rebuild_system_prompt
  split
  next h => exact h.1
  next h =>
    split
    next heq =>
      have hinf := compile_system_message_contains_memory st.systemPrompt meta st.memCompiled
      rw [heq] at hinf
      exact hinf
    next hne =>
      exact compile_system_message_contains_memory st.systemPrompt meta st.memCompiled

/-- C5: when the compiled memory content is already a substring of the
current system message and `force` is false, `rebuild_system_prompt` is a
no-op (system message content, id and persisted-message count all
unchanged); consequently a second non-forced rebuild after any first one
never mutates again, whatever metadata block each call sees. -/
theorem rebuild_system_prompt_noop_idempotent :
    (∀ (st : RebuildState) (meta : List Char) (fid : Nat),
        st.memCompiled <:+: st.headContent →
        rebuild_system_prompt false meta fid st = st) ∧
    (∀ (st : RebuildState) (m1 m2 : List Char) (f1 f2 : Nat),
        rebuild_system_prompt false m2 f2 (rebuild_system_prompt false m1 f1 st) =
          rebuild_system_prompt false m1 f1 st) :=
  ⟨rebuild_skip,
   fun st m1 m2 f1 f2 => rebuild_skip _ m2 f2 (rebuild_establishes_substring st m1 f1)⟩

/-- Witness for C5: a state whose system message already contains the
compiled memory is left untouched. -/
theorem rebuild_system_prompt_noop_witness :
    rebuild_system_prompt false "meta".data 7
      ⟨"sys mem tail".data, 1, "mem".data, "prompt".data, 0⟩ =
      ⟨"sys mem tail".data, 1, "mem".data, "prompt".data, 0⟩ :=
  rebuild_system_prompt_noop_idempotent.1 _ "meta".data 7 (by decide)

/-- C8: `check_tool_rules` raises the construction-time configuration
fault exactly when the model lacks structured-output support and the tool
rules hold more than one init rule; with at most one init rule or a
structured-output model it returns the support flag instead. -/
theorem check_tool_rules_fault_iff (model : String) (sm : List String)
    (rules : List ToolRule) :
    check_tool_rules model sm rules = Except.error ConfigError.multipleInitTools ↔
      model ∉ sm ∧ 1 < (init_tool_rules rules).length := by
  unfold check_tool_rules
  split
  next hm =>
    split
    next hn => exact iff_of_true rfl ⟨hm, hn⟩
    next hn => exact iff_of_false (by simp) (fun h => hn h.2)
  next hm => exact iff_of_false (by simp) (fun h => h.1 (not_not.mp hm))

/-- C1 counterexample: on the unregistered tool name `does_not_exist`,
`_handle_ai_response` returns without raising, appends a tool-role
message whose packaged content signals failure — but the returned
`heartbeat_request` is `false` (it is `function_failed` that is `true`),
contradicting `heartbeatRequested == true`. -/
theorem handle_unknown_tool_counterexample :
    _handle_ai_response unknownToolCtx unknownToolResponse =
      Except.ok ([⟨Role.assistant, none, HMsgContent.fromModel none, none⟩,
        ⟨Role.tool, some "does_not_exist",
          HMsgContent.packaged ⟨false, "No function named does_not_exist"⟩,
          some "call-1"⟩],
        false, true) := by rfl

/-- C1 (amended): an unregistered tool name makes `_handle_ai_response`
return (raising nothing) an appended tool-role message whose packaged
content signals failure, with `heartbeat_request == false` and
`function_failed == true`; the `step` loop then forces a continuation
(injecting a synthetic heartbeat message) off the failure flag alone. -/
theorem handle_unknown_tool_failure (ctx : HandleCtx) (rm : ResponseMessage)
    (tc : ToolCallObj) (rest : List ToolCallObj)
    (hdep : rm.hasDeprecatedFunctionCall = false)
    (htc : rm.tool_calls = some (tc :: rest))
    (hname : tc.func.name ∉ ctx.toolNames) :
    _handle_ai_response ctx rm =
      Except.ok ([⟨Role.assistant, none, HMsgContent.fromModel rm.content, none⟩,
        ⟨Role.tool, some tc.func.name,
          HMsgContent.packaged ⟨false, "No function named " ++ tc.func.name⟩,
          some tc.callId⟩],
        false, true) ∧
    stepChains true false false true false = true := by
  refine ⟨?_, rfl⟩
  unfold _handle_ai_response
  rw [hdep, htc]
  simp [hname]

/-- Witness for C1 (amended) at the concrete unregistered name. -/
theorem handle_unknown_tool_failure_witness :
    _handle_ai_response unknownToolCtx unknownToolResponse =
      Except.ok ([⟨Role.assistant, none, HMsgContent.fromModel none, none⟩,
        ⟨Role.tool, some "does_not_exist",
          HMsgContent.packaged ⟨false, "No function named does_not_exist"⟩,
          some "call-1"⟩],
        false, true) ∧
    stepChains true false false true false = true :=
  handle_unknown_tool_failure unknownToolCtx unknownToolResponse
    ⟨"call-1", ⟨"does_not_exist", "\x7b\x7d"⟩⟩ [] rfl rfl (by decide)

/-- C9: on a successfully executed tool call the returned
`heartbeat_request` is exactly the tool-rule override applied to the
model-supplied value — a tool with declared children forces `true`
whatever the model asked (and even if the tool is also terminal), and a
terminal tool without children forces `false` whatever the model asked. -/
theorem handle_heartbeat_override_precedence (ctx : HandleCtx) (rm : ResponseMessage)
    (tc : ToolCallObj) (rest : List ToolCallObj) (args : ArgsObj) (out : String)
    (hdep : rm.hasDeprecatedFunctionCall = false)
    (htc : rm.tool_calls = some (tc :: rest))
    (hname : tc.func.name ∈ ctx.toolNames)
    (hargs : ctx.parseJson tc.func.arguments = some args)
    (hexec : ctx.execTool tc.func.name args = Except.ok out) :
    _handle_ai_response ctx rm =
      Except.ok ([⟨Role.assistant, none, HMsgContent.fromModel rm.content, none⟩,
        ⟨Role.tool, some tc.func.name, HMsgContent.packaged ⟨true, out⟩,
          some tc.callId⟩],
        applyToolRuleHeartbeat ctx (some tc.func.name)
          (parseHeartbeat args.request_heartbeat), false) ∧
    (∀ f b, ctx.hasChildrenTools f = true → applyToolRuleHeartbeat ctx f b = true) ∧
    (∀ f b, ctx.hasChildrenTools f = false → ctx.isTerminalTool f = true →
      applyToolRuleHeartbeat ctx f b = false) := by
  refine ⟨?_, ?_, ?_⟩
  · unfold _handle_ai_response
    rw [hdep, htc]
    simp [hname, hargs, hexec]
  · intro f b hch
    unfold applyToolRuleHeartbeat
    rw [hch]
    rfl
  · intro f b hch hterm
    unfold applyToolRuleHeartbeat
    rw [hch, hterm]
    rfl

/-- Witness for C9: the tool `t` both has children and is terminal, the
model asked for `request_heartbeat = false`, and the returned heartbeat
is still `true` (children override wins). -/
theorem handle_heartbeat_override_precedence_witness :
    _handle_ai_response overrideCtx overrideResponse =
      Except.ok ([⟨Role.assistant, none, HMsgContent.fromModel (some "thinking"), none⟩,
        ⟨Role.tool, some "t", HMsgContent.packaged ⟨true, "r"⟩, some "call-2"⟩],
        true, false) ∧
    applyToolRuleHeartbeat overrideCtx (some "t") false = true := by
  have h := handle_heartbeat_override_precedence overrideCtx overrideResponse
    ⟨"call-2", ⟨"t", "\x7b\x7d"⟩⟩ [] ⟨HbField.boolVal false, ""⟩ "r"
    rfl rfl (by decide) rfl rfl
  exact ⟨h.1, h.2.1 (some "t") false (by decide)⟩

/-- C10: `_handle_ai_response` depends only on the first tool call of the
model response (the rest are discarded before any dispatch), and every
run produces at most one tool-role result message. -/
theorem handle_single_tool_call :
    (∀ (ctx : HandleCtx) (rm : ResponseMessage) (tc : ToolCallObj)
        (rest : List ToolCallObj), rm.tool_calls = some (tc :: rest) →
        _handle_ai_response ctx rm =
          _handle_ai_response ctx { rm with tool_calls := some [tc] }) ∧
    (∀ (ctx : HandleCtx) (rm : ResponseMessage) (msgs : List HMsg) (hb ff : Bool),
        _handle_ai_response ctx rm = Except.ok (msgs, hb, ff) →
        (msgs.countP fun m => m.role == Role.tool) ≤ 1) := by
  constructor
  · intro ctx rm tc rest htc
    unfold _handle_ai_response
    rw [htc]
  · intro ctx rm msgs hb ff h
    unfold _handle_ai_response at h
    split at h
    · exact absurd h (by simp)
    · split at h
      next tc rest =>
        split at h
        · injection h with h'
          rw [Prod.mk.injEq] at h'
          rw [← h'.1]
          simp
        · split at h
          · injection h with h'
            rw [Prod.mk.injEq] at h'
            rw [← h'.1]
            simp
          · split at h
            · injection h with h'
              rw [Prod.mk.injEq] at h'
              rw [← h'.1]
              simp
            · injection h with h'
              rw [Prod.mk.injEq] at h'
              rw [← h'.1]
              simp
      · injection h with h'
        rw [Prod.mk.injEq] at h'
        rw [← h'.1]
        simp

/-- Witness for C10: a response with three tool calls behaves exactly as
one with only the first, and yields a single tool-role message. -/
theorem handle_single_tool_call_witness :
    _handle_ai_response overrideCtx
      ⟨some "thinking", some [⟨"call-2", ⟨"t", "\x7b\x7d"⟩⟩,
        ⟨"call-3", ⟨"u", "x"⟩⟩, ⟨"call-4", ⟨"v", "y"⟩⟩], false⟩ =
      _handle_ai_response overrideCtx
        ⟨some "thinking", some [⟨"call-2", ⟨"t", "\x7b\x7d"⟩⟩], false⟩ ∧
    (([⟨Role.assistant, none, HMsgContent.fromModel (some "thinking"), none⟩,
        ⟨Role.tool, some "t", HMsgContent.packaged ⟨true, "r"⟩, some "call-2"⟩] :
        List HMsg).countP fun m => m.role == Role.tool) ≤ 1 :=
  ⟨handle_single_tool_call.1 overrideCtx _ ⟨"call-2", ⟨"t", "\x7b\x7d"⟩⟩
      [⟨"call-3", ⟨"u", "x"⟩⟩, ⟨"call-4", ⟨"v", "y"⟩⟩] rfl,
   handle_single_tool_call.2 overrideCtx
      ⟨some "thinking", some [⟨"call-2", ⟨"t", "\x7b\x7d"⟩⟩], false⟩ _ true false rfl⟩

end Letta
